import Mathlib

set_option maxRecDepth 8000

/-!
Verification of the supervisor routing logic of the CodeForHer agentic-chat
repository (`src/agents/research_assistant.py`) and of the calculator tool
(`src/agents/tools.py`), as a shallow embedding in Lean 4.

Messages are langchain messages, distinguished by their class
(`HumanMessage` / `AIMessage` / `ToolMessage` / `SystemMessage`), which we
model as a `Role` tag.  The language model and the LlamaGuard safety
classifier are external services: the supervisor is embedded as a pure
function parameterised by the model's response and by the classifier's
output for this turn.
-/

/-- The class of a langchain message, as used by the supervisor code
(`isinstance(last_message, AIMessage)` etc.). -/
inductive Role where
  | system
  | user
  | assistant
  | tool
deriving DecidableEq

/-- A pending tool call attached to an assistant message (langchain
`AIMessage.tool_calls` entries: a tool name and its arguments). -/
structure ToolCall where
  name : String
  args : List (String × String)
deriving DecidableEq

/-- A langchain message: role tag, text content, pending tool calls
(non-empty only on assistant messages that request tools), optional id. -/
structure Message where
  role : Role
  content : String
  tool_calls : List ToolCall := []
  id : Option String := none
deriving DecidableEq

/-- Modelled from the spec: the verdict of the safety classifier
(`agents/llama_guard.py`, not among the supplied sources); §3 of the spec
calls it "a verdict (SAFE / UNSAFE)". -/
inductive SafetyAssessment where
  | SAFE
  | UNSAFE
deriving DecidableEq

/-- Modelled from the spec: the output of the safety classifier, "a verdict
(SAFE / UNSAFE) plus a set of violated category labels"; the supervisor code
reads the fields `safety_assessment` and `unsafe_categories`. -/
structure LlamaGuardOutput where
  safety_assessment : SafetyAssessment
  unsafe_categories : List String := []
deriving DecidableEq

/-- `AgentState` from `research_assistant.py`: `MessagesState` plus the
`total=False` (hence optional) fields `safety`, `current_agent`, `first_run`.
`remaining_steps` is the framework-managed step budget, always present. -/
structure AgentState where
  messages : List Message
  safety : Option LlamaGuardOutput := none
  remaining_steps : Int
  current_agent : Option String := none
  first_run : Option Bool := none
deriving DecidableEq

/-- A partial state update as returned by a langgraph node: `none` in an
optional field means the key is absent from the returned dict and the
channel keeps its previous value; `messages` is appended by the
`MessagesState` reducer. -/
structure StateUpdate where
  messages : List Message
  safety : Option LlamaGuardOutput := none
  current_agent : Option String := none
  first_run : Option Bool := none
deriving DecidableEq

/-- Applying a node's returned update to the state: messages are appended
(`MessagesState` add-messages reducer), every other key overwrites its
channel when present in the update and is kept otherwise. -/
def applyUpdate (state : AgentState) (u : StateUpdate) : AgentState :=
  { messages := state.messages ++ u.messages
    safety := match u.safety with
      | some v => some v
      | none => state.safety
    remaining_steps := state.remaining_steps
    current_agent := match u.current_agent with
      | some v => some v
      | none => state.current_agent
    first_run := match u.first_run with
      | some v => some v
      | none => state.first_run }

/-- `needle` is a leading segment of `hay` (character lists). -/
def charsLead : List Char → List Char → Bool
  | [], _ => true
  | _ :: _, [] => false
  | a :: as, b :: bs => a == b && charsLead as bs

/-- `needle` occurs contiguously somewhere inside `hay` (character lists). -/
def charsContain (needle : List Char) : List Char → Bool
  | [] => needle.isEmpty
  | c :: rest => charsLead needle (c :: rest) || charsContain needle rest

/-- Python's substring test `needle in hay` on strings. -/
def strContains (hay needle : String) : Bool :=
  charsContain needle.data hay.data

/-- Python's `str.lower()` (per-character lowering; the keyword lists and the
message contents involved are ASCII, where the two agree). -/
def lowerStr (s : String) : String :=
  String.mk (s.data.map Char.toLower)

/-- The `emergency_keywords` list of `determine_agent`
(`research_assistant.py` lines 135-143). -/
def emergency_keywords : List String :=
  ["emergency", "help", "danger", "unsafe", "threat", "attack", "harassment"]

/-- The `location_keywords` list of `determine_agent`
(`research_assistant.py` lines 148-155). -/
def location_keywords : List String :=
  ["location", "place", "area", "destination", "neighborhood", "region"]

/-- `determine_agent` (`research_assistant.py` lines 130-160): lower-case the
content of the last message of the history and test the two keyword lists by
substring containment, emergency first, then location, else companion.
Python indexes `state["messages"][-1]`, which fails on an empty history, so
the embedding returns an `Option`. -/
def determine_agent (state : AgentState) : Option String :=
  state.messages.getLast?.map fun msg =>
    let last_message := lowerStr msg.content
    if emergency_keywords.any fun keyword => strContains last_message keyword then
      "emergency"
    else if location_keywords.any fun keyword => strContains last_message keyword then
      "location"
    else
      "companion"

example :
    determine_agent
      { messages := [{ role := Role.user, content := "I feel UNSAFE in this area" }]
        remaining_steps := 5 } = some "emergency" := by decide

example :
    determine_agent
      { messages := [{ role := Role.user, content := "Just chatting, how are you?" }]
        remaining_steps := 5 } = some "companion" := by decide

example :
    determine_agent
      { messages := [{ role := Role.user, content := "Is this neighborhood fine?" }]
        remaining_steps := 5 } = some "location" := by decide

/-- `format_safety_message` (`research_assistant.py` lines 125-127): an
`AIMessage` whose content is the fixed flagged-content text followed by the
comma-joined category labels (`", ".join(safety.unsafe_categories)`). -/
def format_safety_message (safety : LlamaGuardOutput) : Message :=
  { role := Role.assistant
    content := "This conversation was flagged for unsafe content: " ++
      String.intercalate ", " safety.unsafe_categories }

/-- The greeting content of the first-run branch of `supervisor`
(`research_assistant.py` lines 170-176), byte for byte: the Python
triple-quoted literal keeps its newlines and the 20-space indentation of its
continuation lines, and the trailing space after "travels.". -/
def greeting_content : String :=
  "Hello! I'm your travel safety companion. I'm here to support you and help ensure your safety during your travels. \n" ++
  "                    I can help you with:\n" ++
  "                    - Location safety information and tips\n" ++
  "                    - Emergency guidance and resources\n" ++
  "                    - General travel safety advice and companionship\n" ++
  "                    \n" ++
  "                    How can I assist you today? Feel free to ask any questions about your travel safety concerns."

/-- The fixed apology content of the low-budget branch of `supervisor`
(`research_assistant.py` line 206). -/
def apology_content : String :=
  "I apologize, but I need more steps to process this request. Would you like me to help you with something else?"

/-- The update returned by the first-run branch of `supervisor`
(`research_assistant.py` lines 167-181): the greeting message, persona set
to "companion", first-run flag cleared. -/
def greeting_update : StateUpdate :=
  { messages := [{ role := Role.assistant, content := greeting_content }]
    current_agent := some "companion"
    first_run := some false }

/-- `supervisor` (`research_assistant.py` lines 163-211), embedded as a pure
function of the state, of the model's `response` for the turn (the
`AIMessage` produced by `model_runnable.ainvoke`) and of the safety
classifier's output `safety_output` for `state["messages"] + [response]`.
The first branch fires when `not state.get("messages")` (empty history) or
`state.get("first_run", True)` (flag true or absent).  The Python write
`state["current_agent"] = current_agent` (line 185) mutates the node's local
dict only; it is not part of any returned update, so it never reaches the
checkpointed state — `determine_agent`'s result selects the persona
instruction template for the model call, which is external to this
embedding.  The low-budget branch reuses the model response's id. -/
def supervisor (state : AgentState) (response : Message)
    (safety_output : LlamaGuardOutput) : StateUpdate :=
  if state.messages = [] ∨ state.first_run.getD true = true then
    greeting_update
  else if safety_output.safety_assessment = SafetyAssessment.UNSAFE then
    { messages := [format_safety_message safety_output]
      safety := some safety_output }
  else if state.remaining_steps < 2 ∧ response.tool_calls ≠ [] then
    { messages := [{ role := Role.assistant
                     content := apology_content
                     id := response.id }] }
  else
    { messages := [response] }

/-- `route_next` (`research_assistant.py` lines 215-222): not an `AIMessage`
→ "supervisor"; an `AIMessage` with pending `tool_calls` → "tools"; else
"done".  Python indexes `state["messages"][-1]`, which fails on an empty
history, so the embedding returns an `Option`. -/
def route_next (state : AgentState) : Option String :=
  state.messages.getLast?.map fun last_message =>
    if last_message.role ≠ Role.assistant then "supervisor"
    else if last_message.tool_calls ≠ [] then "tools"
    else "done"

/-- The message whose content `determine_agent` classifies: the last message
of the history, `state["messages"][-1]` (`research_assistant.py` line 132). -/
def classified_message (state : AgentState) : Option Message :=
  state.messages.getLast?

/-- From the spec's words ("classifies the latest user message"): the latest
message of the history whose role is `user`; declared for comparison with
`classified_message`. -/
def latest_user_message (state : AgentState) : Option Message :=
  (state.messages.filter fun m => m.role == Role.user).getLast?

/-- The fixed persona keys: the keys of the instruction-template table in
`wrap_model` (`research_assistant.py` lines 110-116), which is also the
spec's enumerated persona set. -/
def persona_keys : List String :=
  ["location", "emergency", "companion", "nearby_places", "get_route"]

/-- The persona key of a state is admissible: one of the enumerated keys, or
absent (the default, before any supervisor turn has set it). -/
def persona_ok : Option String → Bool
  | none => true
  | some a => persona_keys.contains a

/-- One step of the compiled graph, over-approximated: a `supervisor` node
application (for an arbitrary model response and classifier output), or a
`tools` node application (`ToolNode` appends tool-result messages for the
pending calls).  `remaining_steps` is managed by the framework, so a step
leaves it arbitrary (any invariant proved over this relation holds for the
framework's actual bookkeeping). -/
inductive Step : AgentState → AgentState → Prop
  | supervisor_node (st : AgentState) (response : Message)
      (safety_output : LlamaGuardOutput) (rs : Int) :
      Step st { applyUpdate st (supervisor st response safety_output) with
                remaining_steps := rs }
  | tools_node (st : AgentState) (results : List Message) (rs : Int) :
      (∀ m ∈ results, m.role = Role.tool) →
      Step st { st with
                messages := st.messages ++ results
                remaining_steps := rs }

/-- Reachability along graph steps. -/
def Reach : AgentState → AgentState → Prop :=
  Relation.ReflTransGen Step

/-- `re.sub(r"^\[|\]$", "", output)` in `calculator_func` (`tools.py` line
36): remove one leading opening bracket and one trailing closing bracket,
when present. -/
def stripOuterBrackets (s : String) : String :=
  let d1 : List Char := match s.data with
    | '[' :: rest => rest
    | other => other
  String.mk (match d1.getLast? with
    | some ']' => d1.dropLast
    | _ => d1)

/-- `calculator_func` (`tools.py` lines 13-41).  The call
`str(numexpr.evaluate(expression.strip(), global_dict, local_dict))` — the
external numexpr library evaluating in the restricted namespace whose
globals are empty and whose locals hold only `pi` and `e` — is embedded as
the parameter `ev`, returning the printed result or the raised exception's
text; Python's `expression.strip()` is `String.trim`.  On failure the code
raises `ValueError` whose message interpolates the original `expression`. -/
def calculator_func (ev : String → Except String String)
    (expression : String) : Except String String :=
  match ev expression.trim with
  | Except.ok output => Except.ok (stripOuterBrackets output)
  | Except.error e =>
      Except.error ("calculator(\"" ++ expression ++ "\") raised error: " ++ e ++
        ". Please try again with a valid numerical expression")

example :
    supervisor { messages := [], remaining_steps := 5 }
      { role := Role.assistant, content := "x" }
      { safety_assessment := SafetyAssessment.SAFE } = greeting_update := by decide

example :
    supervisor
      { messages := [{ role := Role.user, content := "hi" }]
        remaining_steps := 5, first_run := some false }
      { role := Role.assistant, content := "x" }
      { safety_assessment := SafetyAssessment.SAFE } =
    { messages := [{ role := Role.assistant, content := "x" }] } := by decide

example :
    supervisor
      { messages := [{ role := Role.user, content := "hi" }]
        remaining_steps := 1, first_run := some false }
      { role := Role.assistant, content := "x"
        tool_calls := [{ name := "Calculator", args := [("expression", "1+1")] }]
        id := some "run-1" }
      { safety_assessment := SafetyAssessment.SAFE } =
    { messages := [{ role := Role.assistant, content := apology_content
                     id := some "run-1" }] } := by decide

example :
    calculator_func (fun _ => Except.error "invalid syntax") "2 +/ 3" =
      Except.error "calculator(\"2 +/ 3\") raised error: invalid syntax. Please try again with a valid numerical expression" := by rfl

example : stripOuterBrackets "[42]" = "42" := by decide
example : stripOuterBrackets "42" = "42" := by decide

/-! Helper lemmas about substring containment. -/

theorem charsLead_self_append (n t : List Char) : charsLead n (n ++ t) = true := by
  induction n with
  | nil => rfl
  | cons a as ih => simp [charsLead, ih]

theorem charsContain_parts (p n t : List Char) :
    charsContain n (p ++ n ++ t) = true := by
  induction p with
  | nil =>
      cases hn : n with
      | nil =>
          cases t with
          | nil => rfl
          | cons c cs => simp [charsContain, charsLead]
      | cons a as =>
          simpa [charsContain] using Or.inl (charsLead_self_append (a :: as) t)
  | cons c cs ih =>
      simpa [charsContain] using Or.inr ih

theorem strContains_parts (p n t : String) : strContains (p ++ n ++ t) n = true := by
  unfold strContains
  rw [String.data_append, String.data_append]
  exact charsContain_parts p.data n.data t.data

theorem strContains_append_right (p n : String) : strContains (p ++ n) n = true := by
  have h := strContains_parts p n ""
  rwa [String.append_empty] at h

theorem strContains_self (s : String) : strContains s s = true := by
  have h := strContains_parts "" s ""
  rwa [String.append_empty, String.empty_append] at h

/-- C1: for every conversation state whose last message content contains,
case-insensitively as a substring, any of the emergency keywords,
`determine_agent` returns "emergency" — even when the content also contains
location keywords, since the emergency list is tested first and the first
match wins. -/
theorem determine_agent_emergency_priority (st : AgentState) (m : Message)
    (k : String) (hm : st.messages.getLast? = some m)
    (hk : k ∈ emergency_keywords)
    (hc : strContains (lowerStr m.content) k = true) :
    determine_agent st = some "emergency" := by
  have hany : (emergency_keywords.any fun keyword =>
      strContains (lowerStr m.content) keyword) = true :=
    List.any_eq_true.mpr ⟨k, hk, hc⟩
  unfold determine_agent
  rw [hm]
  simp only [Option.map_some', hany, if_true]

/-- C1 witness: "I feel UNSAFE in this area" contains the emergency keyword
"unsafe" (and the location keyword "area"), and is classified "emergency". -/
theorem determine_agent_emergency_priority_witness :
    determine_agent
      { messages := [{ role := Role.user, content := "I feel UNSAFE in this area" }]
        remaining_steps := 5 } = some "emergency" :=
  determine_agent_emergency_priority
    { messages := [{ role := Role.user, content := "I feel UNSAFE in this area" }]
      remaining_steps := 5 }
    { role := Role.user, content := "I feel UNSAFE in this area" }
    "unsafe" (by decide) (by decide) (by decide)

/-- C7: for every conversation state whose last message content contains,
case-insensitively as a substring, none of the emergency keywords and none
of the location keywords, `determine_agent` returns "companion". -/
theorem determine_agent_companion_default (st : AgentState) (m : Message)
    (hm : st.messages.getLast? = some m)
    (he : ∀ k ∈ emergency_keywords, strContains (lowerStr m.content) k = false)
    (hl : ∀ k ∈ location_keywords, strContains (lowerStr m.content) k = false) :
    determine_agent st = some "companion" := by
  have hanye : (emergency_keywords.any fun keyword =>
      strContains (lowerStr m.content) keyword) = false := by
    refine List.any_eq_false.mpr ?_
    intro k hk
    simp [he k hk]
  have hanyl : (location_keywords.any fun keyword =>
      strContains (lowerStr m.content) keyword) = false := by
    refine List.any_eq_false.mpr ?_
    intro k hk
    simp [hl k hk]
  unfold determine_agent
  rw [hm]
  simp only [Option.map_some', hanye, hanyl, if_false, Bool.false_eq_true]

/-- C7 witness: "Just chatting, how are you?" contains no keyword of either
list and is classified "companion". -/
theorem determine_agent_companion_default_witness :
    determine_agent
      { messages := [{ role := Role.user, content := "Just chatting, how are you?" }]
        remaining_steps := 5 } = some "companion" :=
  determine_agent_companion_default
    { messages := [{ role := Role.user, content := "Just chatting, how are you?" }]
      remaining_steps := 5 }
    { role := Role.user, content := "Just chatting, how are you?" }
    (by decide) (by decide) (by decide)

/-- C6: for every conversation state with non-empty history, `route_next`
returns "supervisor" when the last message is not an assistant message,
"tools" when it is an assistant message with pending tool calls, and "done"
when it is an assistant message without pending tool calls. -/
theorem route_next_spec (st : AgentState) (m : Message)
    (hm : st.messages.getLast? = some m) :
    (m.role ≠ Role.assistant → route_next st = some "supervisor") ∧
    (m.role = Role.assistant → m.tool_calls ≠ [] → route_next st = some "tools") ∧
    (m.role = Role.assistant → m.tool_calls = [] → route_next st = some "done") := by
  unfold route_next
  rw [hm]
  refine ⟨fun h => by simp [h], fun h h2 => by simp [h, h2], fun h h2 => by simp [h, h2]⟩

/-- C6 witness: an assistant message without pending tool calls terminates
the turn. -/
theorem route_next_spec_witness :
    route_next
      { messages := [{ role := Role.assistant, content := "all done" }]
        remaining_steps := 3 } = some "done" :=
  (route_next_spec
    { messages := [{ role := Role.assistant, content := "all done" }]
      remaining_steps := 3 }
    { role := Role.assistant, content := "all done" }
    (by decide)).2.2 rfl rfl

/-- C4: for every conversation state with empty message history or with the
first-run flag set, `supervisor` returns the fixed greeting update — the
greeting message, persona set to "companion", first-run flag cleared —
independently of the message contents, of the model response and of the
classifier output (the result is the constant `greeting_update`, so no model
invocation or tool call can influence it), and the conditional edge then
terminates the turn, so no tool executes. -/
theorem supervisor_first_turn (st : AgentState) (r : Message)
    (s : LlamaGuardOutput) (h : st.messages = [] ∨ st.first_run = some true) :
    supervisor st r s = greeting_update ∧
    route_next (applyUpdate st (supervisor st r s)) = some "done" := by
  have hcond : st.messages = [] ∨ st.first_run.getD true = true := by
    rcases h with h | h
    · exact Or.inl h
    · exact Or.inr (by rw [h]; rfl)
  have hs : supervisor st r s = greeting_update := by
    unfold supervisor
    rw [if_pos hcond]
  refine ⟨hs, ?_⟩
  rw [hs]
  unfold applyUpdate route_next greeting_update
  simp [List.getLast?_concat]

/-- C4 witness: a state with the first-run flag set and a non-empty history
full of emergency keywords still gets the greeting, and the turn ends. -/
theorem supervisor_first_turn_witness :
    supervisor
      { messages := [{ role := Role.user, content := "help, emergency!" }]
        remaining_steps := 5, first_run := some true }
      { role := Role.assistant, content := "model reply" }
      { safety_assessment := SafetyAssessment.SAFE } = greeting_update :=
  (supervisor_first_turn
    { messages := [{ role := Role.user, content := "help, emergency!" }]
      remaining_steps := 5, first_run := some true }
    { role := Role.assistant, content := "model reply" }
    { safety_assessment := SafetyAssessment.SAFE }
    (Or.inr rfl)).1

/-- C10: `state.get("first_run", True)` defaults an absent first-run flag to
true, so for every state whose first-run field is absent the supervisor
returns the greeting update even when the history is non-empty; and whenever
the supervisor does anything other than return the greeting update — the
keyword-classification and model-invocation path — the state's first-run
flag was explicitly false. -/
theorem supervisor_absent_first_run (st : AgentState) (r : Message)
    (s : LlamaGuardOutput) (h : st.first_run = none) :
    supervisor st r s = greeting_update ∧
    (∀ st' : AgentState, supervisor st' r s ≠ greeting_update →
      st'.first_run = some false) := by
  constructor
  · unfold supervisor
    rw [if_pos (Or.inr (by rw [h]; rfl))]
  · intro st' hne
    by_cases hc : st'.messages = [] ∨ st'.first_run.getD true = true
    · exact absurd (by unfold supervisor; rw [if_pos hc]) hne
    · push_neg at hc
      cases hfr : st'.first_run with
      | none =>
          rw [hfr] at hc
          simp at hc
      | some b =>
          cases b with
          | false => rfl
          | true =>
              rw [hfr] at hc
              simp at hc

/-- C10 witness: a non-empty history with the first-run field absent still
gets the greeting. -/
theorem supervisor_absent_first_run_witness :
    supervisor
      { messages := [{ role := Role.user, content := "is this area fine?" }]
        remaining_steps := 5 }
      { role := Role.assistant, content := "model reply" }
      { safety_assessment := SafetyAssessment.SAFE } = greeting_update :=
  (supervisor_absent_first_run
    { messages := [{ role := Role.user, content := "is this area fine?" }]
      remaining_steps := 5 }
    { role := Role.assistant, content := "model reply" }
    { safety_assessment := SafetyAssessment.SAFE }
    rfl).1

/-- C2 counterexample: the flagged message's content is a fixed template, so
a model response whose content happens to be a substring of that template —
here the word "flagged" — IS contained in the emitted content: the claim's
"does not contain the model's generated content" fails as a universal
statement.  The turn is a non-first turn and the classifier output is
UNSAFE, so the claim's premises hold. -/
theorem supervisor_flagged_contains_content_counterexample :
    supervisor
      { messages := [{ role := Role.user, content := "hi" }]
        remaining_steps := 5, first_run := some false }
      { role := Role.assistant, content := "flagged" }
      { safety_assessment := SafetyAssessment.UNSAFE, unsafe_categories := ["S1"] } =
      { messages := [{ role := Role.assistant
                       content := "This conversation was flagged for unsafe content: S1" }]
        safety := some { safety_assessment := SafetyAssessment.UNSAFE
                         unsafe_categories := ["S1"] } } ∧
    strContains "This conversation was flagged for unsafe content: S1" "flagged" = true := by
  decide

/-- C2 amended: on a non-first turn whose classifier output is UNSAFE, and
provided the model's generated content is not a substring of the flagged
text (the failure of that proviso is the counterexample), the supervisor
emits exactly the flagged message — whose content contains the comma-joined
category labels and does not contain the model's content — the model
response is not appended to the history, and the assessment is recorded in
the safety field. -/
theorem supervisor_flagged_message (st : AgentState) (r : Message)
    (so : LlamaGuardOutput)
    (hnf : ¬(st.messages = [] ∨ st.first_run.getD true = true))
    (hu : so.safety_assessment = SafetyAssessment.UNSAFE)
    (hnc : strContains (format_safety_message so).content r.content = false) :
    (supervisor st r so).messages = [format_safety_message so] ∧
    strContains (format_safety_message so).content
      (String.intercalate ", " so.unsafe_categories) = true ∧
    strContains (format_safety_message so).content r.content = false ∧
    (supervisor st r so).safety = some so ∧
    r ∉ (supervisor st r so).messages := by
  have hs : supervisor st r so =
      { messages := [format_safety_message so], safety := some so } := by
    unfold supervisor
    rw [if_neg hnf, if_pos hu]
  refine ⟨by rw [hs], ?_, hnc, by rw [hs], ?_⟩
  · exact strContains_append_right "This conversation was flagged for unsafe content: "
      (String.intercalate ", " so.unsafe_categories)
  · rw [hs]
    intro hmem
    have hr : r = format_safety_message so := by simpa using hmem
    rw [hr, strContains_self] at hnc
    exact Bool.noConfusion hnc

/-- C2 witness: a turn with an UNSAFE assessment over categories S1, S6 and
a model reply that is no substring of the flagged text emits exactly the
flagged message. -/
theorem supervisor_flagged_message_witness :
    (supervisor
      { messages := [{ role := Role.user, content := "hi" }]
        remaining_steps := 5, first_run := some false }
      { role := Role.assistant, content := "Here is a dangerous reply the user must not see" }
      { safety_assessment := SafetyAssessment.UNSAFE
        unsafe_categories := ["S1", "S6"] }).messages =
    [format_safety_message
      { safety_assessment := SafetyAssessment.UNSAFE
        unsafe_categories := ["S1", "S6"] }] :=
  (supervisor_flagged_message
    { messages := [{ role := Role.user, content := "hi" }]
      remaining_steps := 5, first_run := some false }
    { role := Role.assistant, content := "Here is a dangerous reply the user must not see" }
    { safety_assessment := SafetyAssessment.UNSAFE
      unsafe_categories := ["S1", "S6"] }
    (by decide) rfl (by decide)).1

/-- C3 counterexample: the UNSAFE branch is tested before the step-budget
branch, so a non-first turn with the remaining-step counter below 2 (here 1)
and a pending tool call, but whose classifier output is UNSAFE, emits the
flagged message, not the fixed apology text: the claim's "the message
emitted is the fixed apology text" fails without a safety proviso. -/
theorem supervisor_low_budget_counterexample :
    supervisor
      { messages := [{ role := Role.user, content := "hi" }]
        remaining_steps := 1, first_run := some false }
      { role := Role.assistant, content := "reply"
        tool_calls := [{ name := "Calculator", args := [("expression", "1+1")] }] }
      { safety_assessment := SafetyAssessment.UNSAFE, unsafe_categories := ["S1"] } =
      { messages := [{ role := Role.assistant
                       content := "This conversation was flagged for unsafe content: S1" }]
        safety := some { safety_assessment := SafetyAssessment.UNSAFE
                         unsafe_categories := ["S1"] } } ∧
    ("This conversation was flagged for unsafe content: S1" == apology_content) = false := by
  decide

/-- C3 amended: on a non-first turn whose classifier output is not UNSAFE
(the missing proviso exposed by the counterexample), when the remaining-step
counter is below 2 and the model response requests tool calls, the
supervisor emits exactly the fixed apology message (an assistant message
with the apology text, reusing the response's id and carrying no tool
calls), and the conditional edge then terminates the turn, so no tool
executes. -/
theorem supervisor_low_budget_apology (st : AgentState) (r : Message)
    (so : LlamaGuardOutput)
    (hnf : ¬(st.messages = [] ∨ st.first_run.getD true = true))
    (hsafe : so.safety_assessment ≠ SafetyAssessment.UNSAFE)
    (hlow : st.remaining_steps < 2)
    (htc : r.tool_calls ≠ []) :
    (supervisor st r so).messages =
      [{ role := Role.assistant, content := apology_content, id := r.id }] ∧
    route_next (applyUpdate st (supervisor st r so)) = some "done" := by
  have hs : supervisor st r so =
      { messages := [{ role := Role.assistant, content := apology_content
                       id := r.id }] } := by
    unfold supervisor
    rw [if_neg hnf, if_neg hsafe, if_pos ⟨hlow, htc⟩]
  refine ⟨by rw [hs], ?_⟩
  rw [hs]
  unfold applyUpdate route_next
  simp [List.getLast?_concat]

/-- C3 witness: remaining budget 1 with a pending Calculator call and a SAFE
assessment yields the apology message. -/
theorem supervisor_low_budget_apology_witness :
    (supervisor
      { messages := [{ role := Role.user, content := "hi" }]
        remaining_steps := 1, first_run := some false }
      { role := Role.assistant, content := "let me compute"
        tool_calls := [{ name := "Calculator", args := [("expression", "1+1")] }]
        id := some "run-7" }
      { safety_assessment := SafetyAssessment.SAFE }).messages =
    [{ role := Role.assistant, content := apology_content, id := some "run-7" }] :=
  (supervisor_low_budget_apology
    { messages := [{ role := Role.user, content := "hi" }]
      remaining_steps := 1, first_run := some false }
    { role := Role.assistant, content := "let me compute"
      tool_calls := [{ name := "Calculator", args := [("expression", "1+1")] }]
      id := some "run-7" }
    { safety_assessment := SafetyAssessment.SAFE }
    (by decide) (by decide) (by decide) (by decide)).1

/-- If the last element of a list satisfies the filter's predicate, it is
also the last element of the filtered list. -/
theorem getLast?_filter_of_pos {α : Type} (p : α → Bool) :
    ∀ (l : List α) (m : α), l.getLast? = some m → p m = true →
      (l.filter p).getLast? = some m := by
  intro l
  induction l with
  | nil => intro m hm _; cases hm
  | cons a l ih =>
      intro m hm hp
      cases l with
      | nil =>
          simp only [List.getLast?_singleton, Option.some.injEq] at hm
          subst hm
          simp [List.filter, hp]
      | cons b l' =>
          rw [List.getLast?_cons_cons] at hm
          have h2 := ih m hm hp
          by_cases hpa : p a = true
          · rw [List.filter_cons_of_pos hpa]
            cases hfl : (b :: l').filter p with
            | nil => rw [hfl] at h2; cases h2
            | cons c cs =>
                rw [hfl] at h2
                rw [List.getLast?_cons_cons]
                exact h2
          · rw [List.filter_cons_of_neg (by simpa using hpa)]
            exact h2

/-- The state of a turn that has just come back from tool execution: the
user asked a companion-type question, the model requested a Nearby_Places
call, and the `tools` node appended the tool-result message; the next
supervisor pass classifies that tool result. -/
def tool_turn_state : AgentState :=
  { messages :=
      [{ role := Role.user, content := "just chatting with you" },
       { role := Role.assistant, content := ""
         tool_calls := [{ name := "Nearby_Places", args := [("location", "chennai")] }] },
       { role := Role.tool, content := "safe spots in your area" }]
    remaining_steps := 8
    first_run := some false }

/-- C5 counterexample: on a non-first supervisor turn reached through the
`tools → supervisor` edge, the message classified by `determine_agent` is
the last message of the history — a tool-result message — and not the
latest user message; the tool result's content ("... your area") even flips
the persona to "location" although the latest user message ("just chatting
with you") contains no keyword. -/
theorem classified_message_counterexample :
    classified_message tool_turn_state ≠ latest_user_message tool_turn_state ∧
    (classified_message tool_turn_state).map Message.role = some Role.tool ∧
    (latest_user_message tool_turn_state).map Message.role = some Role.user ∧
    determine_agent tool_turn_state = some "location" := by
  decide

/-- C5 amended: the message whose content `determine_agent` classifies is
the last message of the history, of whatever kind; it coincides with the
latest user message exactly when the turn begins with the user's fresh
message, i.e. whenever the last message of the history is a user message. -/
theorem classified_message_eq_latest_user (st : AgentState) (m : Message)
    (hm : st.messages.getLast? = some m) (hr : m.role = Role.user) :
    classified_message st = latest_user_message st := by
  unfold classified_message latest_user_message
  rw [hm]
  exact (getLast?_filter_of_pos _ _ m hm (by simp [hr])).symm

/-- C5 witness: when the history ends with the user's fresh message, the
classified message is the latest user message. -/
theorem classified_message_eq_latest_user_witness :
    classified_message
      { messages := [{ role := Role.assistant, content := "hello" },
                     { role := Role.user, content := "is this area fine?" }]
        remaining_steps := 8, first_run := some false } =
    latest_user_message
      { messages := [{ role := Role.assistant, content := "hello" },
                     { role := Role.user, content := "is this area fine?" }]
        remaining_steps := 8, first_run := some false } :=
  classified_message_eq_latest_user
    { messages := [{ role := Role.assistant, content := "hello" },
                   { role := Role.user, content := "is this area fine?" }]
      remaining_steps := 8, first_run := some false }
    { role := Role.user, content := "is this area fine?" }
    (by decide) rfl

/-- Every update returned by `supervisor` either sets the persona key to
"companion" (greeting branch) or leaves the key absent (every other
branch returns a dict without `current_agent`). -/
theorem supervisor_current_agent (st : AgentState) (r : Message)
    (so : LlamaGuardOutput) :
    (supervisor st r so).current_agent = some "companion" ∨
    (supervisor st r so).current_agent = none := by
  unfold supervisor
  split
  · exact Or.inl rfl
  · split
    · exact Or.inr rfl
    · split
      · exact Or.inr rfl
      · exact Or.inr rfl

/-- C8: in every state reachable from a state whose persona key is
admissible (in particular from any fresh conversation, whose key is absent)
by supervisor and tool-execution steps, the persona key stays one of the
enumerated keys or absent: no operation ever sets it to a value outside the
set. -/
theorem persona_ok_step (a b : AgentState) (h : Step a b)
    (ha : persona_ok a.current_agent = true) :
    persona_ok b.current_agent = true := by
  cases h with
  | supervisor_node r so rs =>
      rcases supervisor_current_agent a r so with hca | hca
      · show persona_ok (applyUpdate a (supervisor a r so)).current_agent = true
        unfold applyUpdate
        rw [hca]
        rfl
      · show persona_ok (applyUpdate a (supervisor a r so)).current_agent = true
        unfold applyUpdate
        rw [hca]
        exact ha
  | tools_node results rs hres => exact ha

theorem persona_key_invariant (init st : AgentState)
    (h0 : persona_ok init.current_agent = true) (h : Reach init st) :
    persona_ok st.current_agent = true := by
  induction h with
  | refl => exact h0
  | tail _ hstep ih => exact persona_ok_step _ _ hstep ih

/-- C8 witness: the invariant instantiated at a fresh conversation state
(empty history, persona key absent) with the empty run. -/
theorem persona_key_invariant_witness :
    persona_ok ({ messages := [], remaining_steps := 5 } : AgentState).current_agent = true :=
  persona_key_invariant
    { messages := [], remaining_steps := 5 }
    { messages := [], remaining_steps := 5 }
    (by decide) Relation.ReflTransGen.refl

/-- C9: whenever the restricted-namespace evaluation `ev` fails on the
stripped input, `calculator_func` produces an error whose message contains
the offending input expression verbatim; whenever `ev` succeeds,
`calculator_func` returns the (bracket-trimmed) printed result. -/
theorem calculator_func_spec (ev : String → Except String String)
    (expression : String) :
    (∀ e, ev expression.trim = Except.error e →
      calculator_func ev expression =
        Except.error ("calculator(\"" ++ expression ++ "\") raised error: " ++ e ++
          ". Please try again with a valid numerical expression") ∧
      strContains ("calculator(\"" ++ expression ++ "\") raised error: " ++ e ++
          ". Please try again with a valid numerical expression") expression = true) ∧
    (∀ output, ev expression.trim = Except.ok output →
      calculator_func ev expression = Except.ok (stripOuterBrackets output)) := by
  constructor
  · intro e he
    constructor
    · unfold calculator_func
      rw [he]
    · rw [String.append_assoc, String.append_assoc]
      exact strContains_parts "calculator(\"" expression
        ("\") raised error: " ++ (e ++ ". Please try again with a valid numerical expression"))
  · intro output ho
    unfold calculator_func
    rw [ho]

/-- C9 witness: an evaluation failure ("invalid syntax") on the expression
"2 +/ 3" yields the ValueError text, which contains the expression. -/
theorem calculator_func_spec_witness :
    calculator_func (fun _ => Except.error "invalid syntax") "2 +/ 3" =
      Except.error "calculator(\"2 +/ 3\") raised error: invalid syntax. Please try again with a valid numerical expression" ∧
    strContains "calculator(\"2 +/ 3\") raised error: invalid syntax. Please try again with a valid numerical expression" "2 +/ 3" = true :=
  ((calculator_func_spec (fun _ => Except.error "invalid syntax") "2 +/ 3").1
    "invalid syntax" rfl)
